import Mathlib

/-!
Verification of the GDF image pipeline (`gdf_engine.py`, display blend of
`main.py`) against its specification.

Images are embedded as grids of pixels: a `Grid α` stores its height, width
and a total pixel function (values outside the stored bounds are irrelevant
padding). Colour pixels are `Fin 3 → ℝ`; normalised float arithmetic of the
source is modelled over the reals. External OpenCV primitives that the engine
calls (Gaussian blur, CLAHE, the RGB/LAB colour conversions, the image
decoder) are not part of this repository; they are abstracted as parameters
in an `Ext` record, while everything the engine itself computes (the tone
map formula, the high-pass blend, clipping, the uint8 round trips, preset
dispatch, state updates) is translated directly from the source.
-/

namespace GDF

noncomputable section

/-- A dense 2-D grid of pixels with explicit dimensions; `pix` is total,
entries at indices beyond `h`/`w` are meaningless padding. -/
structure Grid (α : Type) where
  h : ℕ
  w : ℕ
  pix : ℕ → ℕ → α

/-- A colour image layer: each pixel holds three real channel values. -/
abbrev Img := Grid (Fin 3 → ℝ)

/-- Pixel-wise map over a grid; dimensions are preserved by construction,
matching elementwise numpy operations. -/
def Grid.map {α β : Type} (f : α → β) (g : Grid α) : Grid β :=
  Grid.mk g.h g.w (fun i j => f (g.pix i j))

/-- The numpy clip of a value to the unit interval, `np.clip(x, 0.0, 1.0)`. -/
def clip01 (x : ℝ) : ℝ := max 0 (min x 1)

/-- Every pixel value of the image lies in the unit interval. -/
def InUnit (g : Img) : Prop := ∀ i j : ℕ, ∀ c : Fin 3, 0 ≤ g.pix i j c ∧ g.pix i j c ≤ 1

/-- The C-style cast of a float to uint8 used by `astype(np.uint8)`:
truncation, wrapped modulo 256. -/
def toU8 (x : ℝ) : ℕ := (Int.toNat ⌊x⌋) % 256

/-- External OpenCV primitives the engine calls. `cvtColor` between RGB and
LAB is a per-pixel map; Gaussian blur (as a function of the kernel size) and
CLAHE (as a function of clip limit and tile grid, acting on a uint8 channel)
are whole-image operations; `imread` decodes a path to a uint8 BGR grid or
fails with `none`. -/
structure Ext where
  gauss : ℕ → Img → Img
  cvtRGB2LAB : (Fin 3 → ℝ) → (Fin 3 → ℝ)
  cvtLAB2RGB : (Fin 3 → ℝ) → (Fin 3 → ℝ)
  claheApply : ℝ → ℕ × ℕ → Grid ℕ → Grid ℕ
  imread : String → Option (Grid (Fin 3 → ℕ))

/-- The mutable fields of the `ImageProcessor` class. -/
structure ImageProcessor where
  original_layer : Option Img
  processed_layer : Option Img
  current_preset : Option String

/-- `ImageProcessor.__init__`: all three fields start as `None`. -/
def ImageProcessor.init : ImageProcessor := ImageProcessor.mk none none none

/-- Channel shuffle of `cv2.cvtColor(img, cv2.COLOR_BGR2RGB)`: output channel
0 (R) reads input channel 2, channel 2 (B) reads input channel 0. -/
def bgr2rgbIdx (c : Fin 3) : Fin 3 := if c = 0 then 2 else if c = 2 then 0 else 1

/-- `ImageProcessor.load_image`: decode the file, raise
`ValueError(f"Could not load image from {path}")` when the decoder returns
`None` (leaving the state untouched), otherwise convert BGR to RGB, divide by
255 into floats, and set both layers to the result, returning `True`.
The raised exception is modelled as the `Except.error` branch. -/
def load_image (ext : Ext) (st : ImageProcessor) (path : String) :
    ImageProcessor × Except String Bool :=
  match ext.imread path with
  | none => (st, Except.error ("Could not load image from " ++ path))
  | some img =>
    let rgb : Grid (Fin 3 → ℕ) := Grid.map (fun p c => p (bgr2rgbIdx c)) img
    let img_float : Img := Grid.map (fun p c => (p c : ℝ) / 255) rgb
    (ImageProcessor.mk (some img_float) (some img_float) st.current_preset, Except.ok true)

/-- The per-pixel tone map of `module_log_stretch`: negatives are clamped by
`np.maximum(image, 0.0)`, then `np.log1p(strength * x) / np.log1p(strength)`,
then `np.clip(·, 0.0, 1.0)`. -/
def logStretchPix (strength x : ℝ) : ℝ :=
  clip01 (Real.log (1 + strength * max x 0) / Real.log (1 + strength))

/-- `ImageProcessor.module_log_stretch`, applied elementwise. -/
def module_log_stretch (image : Img) (strength : ℝ) : Img :=
  Grid.map (fun p c => logStretchPix strength (p c)) image

/-- `ImageProcessor.module_clahe`: convert to LAB, split, take the L channel
to uint8 via `(l * 255.0).astype(np.uint8)`, run CLAHE on it, divide by 255
back to float, merge with the untouched a and b channels, convert back to
RGB and clip to the unit interval. -/
def module_clahe (ext : Ext) (image : Img) (clip_limit : ℝ) (tile_grid_size : ℕ × ℕ) :
    Img :=
  let lab := Grid.map ext.cvtRGB2LAB image
  let l : Grid ℝ := Grid.mk lab.h lab.w (fun i j => lab.pix i j 0)
  let a : Grid ℝ := Grid.mk lab.h lab.w (fun i j => lab.pix i j 1)
  let b : Grid ℝ := Grid.mk lab.h lab.w (fun i j => lab.pix i j 2)
  let l_uint8 : Grid ℕ := Grid.mk l.h l.w (fun i j => toU8 (l.pix i j * 255))
  let cl_uint8 := ext.claheApply clip_limit tile_grid_size l_uint8
  let cl : Grid ℝ := Grid.mk cl_uint8.h cl_uint8.w (fun i j => (cl_uint8.pix i j : ℝ) / 255)
  let lab_merged : Img := Grid.mk cl.h cl.w (fun i j c =>
    if c = 0 then cl.pix i j else if c = 1 then a.pix i j else b.pix i j)
  let result := Grid.map ext.cvtLAB2RGB lab_merged
  Grid.mk result.h result.w (fun i j c => clip01 (result.pix i j c))

/-- Kernel-size adjustment at the top of `module_high_pass`: an even kernel
size is incremented to the next odd value. -/
def oddify (k : ℕ) : ℕ := if k % 2 = 0 then k + 1 else k

/-- `ImageProcessor.module_high_pass`: Gaussian-blur the image at the (odd)
kernel size, invert the blur, blend `0.5 * image + 0.5 * (1 - blur)` and clip
to the unit interval. -/
def module_high_pass (ext : Ext) (image : Img) (kernel_size : ℕ) : Img :=
  Grid.mk image.h image.w (fun i j c =>
    clip01 (0.5 * image.pix i j c
      + 0.5 * (1 - (ext.gauss (oddify kernel_size) image).pix i j c)))

/-- The three recognised preset names of `apply_preset` and `PRESETS`. -/
def presetNames : List String := ["VOID_HUNTER", "HULL_SCANNER", "WAKE_MAPPER"]

/-- `ImageProcessor.apply_preset`: with no loaded image it returns early
(Python `return` of `None`, state untouched); otherwise it copies the
original layer, runs the filter sequence selected by `name` (an unknown name
only prints a warning and runs no filters), stores the result as the
processed layer, records `name` as the current preset and returns the
processed layer. The filter dispatch on the copied original (the body of the
if/elif chain of `apply_preset`) is split out as `preset_pipeline`. -/
def preset_pipeline (ext : Ext) (orig : Img) (name : String) : Img :=
  if name = "VOID_HUNTER" then
    module_clahe ext (module_log_stretch orig 50) 4 (8, 8)
  else if name = "HULL_SCANNER" then
    module_high_pass ext (module_clahe ext orig 2 (8, 8)) 31
  else if name = "WAKE_MAPPER" then
    module_clahe ext (module_high_pass ext (module_log_stretch orig 10) 51) 3 (8, 8)
  else orig

/-- The state update and return of `apply_preset` around `preset_pipeline`:
early return on a missing original layer, otherwise store the pipeline result
as processed layer, record the preset name, and return the result. -/
def apply_preset (ext : Ext) (st : ImageProcessor) (name : String) :
    ImageProcessor × Option Img :=
  match st.original_layer with
  | none => (st, none)
  | some orig =>
    let temp_image := preset_pipeline ext orig name
    (ImageProcessor.mk st.original_layer (some temp_image) (some name), some temp_image)

/-- `cv2.addWeighted(a, wa, b, wb, gamma)` on float arrays of equal shape:
the elementwise affine combination, without saturation for float inputs. -/
def addWeighted (a : Img) (wa : ℝ) (b : Img) (wb : ℝ) (gamma : ℝ) : Img :=
  Grid.mk a.h a.w (fun i j c => wa * a.pix i j c + wb * b.pix i j c + gamma)

/-- The blend computed by `MainLayout.update_display`:
`cv2.addWeighted(original, 1 - alpha, processed, alpha, 0.0)`. -/
def update_display_blend (orig proc : Img) (alpha : ℝ) : Img :=
  addWeighted orig (1 - alpha) proc alpha 0

/-- The per-pixel tone map exactly as the specification words it: negative
input values are first raised to 0, then `log(1 + strength*x) /
log(1 + strength)`, clamped to [0,1]. Stated independently of the source to
compare against `logStretchPix`. -/
def logStretchSpecPix (strength x : ℝ) : ℝ :=
  min 1 (max 0 (Real.log (1 + strength * (if x < 0 then 0 else x))
    / Real.log (1 + strength)))

/- Concrete instances used by witnesses and counterexamples. -/

/-- A trivial instantiation of the external primitives: blur and CLAHE are
the identity on the grid, the colour conversions are the identity on pixels,
and the decoder rejects every path. -/
def ext0 : Ext :=
  Ext.mk (fun _ g => g) id id (fun _ _ g => g) (fun _ => none)

/-- A one-pixel image whose channels are all 0. -/
def imgZero : Img := Grid.mk 1 1 (fun _ _ _ => 0)

/-- A one-pixel image whose channels are all 1. -/
def imgOne : Img := Grid.mk 1 1 (fun _ _ _ => 1)

/-- A processor state holding `imgZero` as original layer and `imgOne` as
processed layer, as after a preset changed the processed layer. -/
def stMixed : ImageProcessor := ImageProcessor.mk (some imgZero) (some imgOne) none

/-- A processor state freshly loaded with `imgZero`. -/
def stLoaded : ImageProcessor := ImageProcessor.mk (some imgZero) (some imgZero) none

/- Helper lemmas. -/

/-- Clipping lands in the unit interval. -/
theorem clip01_mem (x : ℝ) : 0 ≤ clip01 x ∧ clip01 x ≤ 1 := by
  unfold clip01
  constructor
  · exact le_max_left 0 _
  · exact max_le zero_le_one (min_le_right x 1)

/-- Clipping is monotone. -/
theorem clip01_mono {x y : ℝ} (h : x ≤ y) : clip01 x ≤ clip01 y := by
  unfold clip01
  exact max_le_max le_rfl (min_le_min h le_rfl)

/-- The two clamp orders agree: `max 0 (min x 1) = min 1 (max 0 x)`. -/
theorem clip01_eq_min_max (x : ℝ) : clip01 x = min 1 (max 0 x) := by
  unfold clip01
  simp only [max_def, min_def]
  split_ifs <;> linarith

/-- `apply_preset` never writes the original layer. -/
theorem apply_preset_keeps_original (ext : Ext) (st : ImageProcessor) (name : String) :
    (apply_preset ext st name).1.original_layer = st.original_layer := by
  obtain ⟨o, p, c⟩ := st
  cases o <;> rfl

/-- Two grids with equal dimensions and equal pixel functions are equal. -/
theorem Grid.eq_of {α : Type} (a b : Grid α) (hh : a.h = b.h) (hw : a.w = b.w)
    (hp : ∀ i j : ℕ, a.pix i j = b.pix i j) : a = b := by
  obtain ⟨ah, aw, ap⟩ := a
  obtain ⟨bh, bw, bp⟩ := b
  dsimp only at hh hw
  subst hh
  subst hw
  have hpp : ap = bp := funext fun i => funext fun j => hp i j
  rw [hpp]

/-- A sequence of `apply_preset` calls, each acting on the state left by the
previous one. -/
def apply_preset_run (ext : Ext) (st : ImageProcessor) (names : List String) :
    ImageProcessor :=
  names.foldl (fun s n => (apply_preset ext s n).1) st

/-- The pipeline runs no filters for an unrecognised preset name. -/
theorem preset_pipeline_unknown (ext : Ext) (orig : Img) (name : String)
    (h1 : name ≠ "VOID_HUNTER") (h2 : name ≠ "HULL_SCANNER")
    (h3 : name ≠ "WAKE_MAPPER") : preset_pipeline ext orig name = orig := by
  unfold preset_pipeline
  rw [if_neg h1, if_neg h2, if_neg h3]

/-- The VOID_HUNTER branch of the pipeline. -/
theorem preset_pipeline_void (ext : Ext) (orig : Img) :
    preset_pipeline ext orig "VOID_HUNTER"
      = module_clahe ext (module_log_stretch orig 50) 4 (8, 8) := by
  unfold preset_pipeline
  rw [if_pos rfl]

/-- The HULL_SCANNER branch of the pipeline. -/
theorem preset_pipeline_hull (ext : Ext) (orig : Img) :
    preset_pipeline ext orig "HULL_SCANNER"
      = module_high_pass ext (module_clahe ext orig 2 (8, 8)) 31 := by
  unfold preset_pipeline
  rw [if_neg (by decide), if_pos rfl]

/-- The WAKE_MAPPER branch of the pipeline. -/
theorem preset_pipeline_wake (ext : Ext) (orig : Img) :
    preset_pipeline ext orig "WAKE_MAPPER"
      = module_clahe ext (module_high_pass ext (module_log_stretch orig 10) 51) 3 (8, 8) := by
  unfold preset_pipeline
  rw [if_neg (by decide), if_neg (by decide), if_pos rfl]

/-- Reduction of `apply_preset` on a loaded state. -/
theorem apply_preset_some (ext : Ext) (st : ImageProcessor) (orig : Img)
    (name : String) (h : st.original_layer = some orig) :
    apply_preset ext st name
      = (ImageProcessor.mk st.original_layer
          (some (preset_pipeline ext orig name)) (some name),
         some (preset_pipeline ext orig name)) := by
  obtain ⟨o, p, c⟩ := st
  cases o with
  | none => exact Option.noConfusion h
  | some a =>
      have ha : a = orig := Option.some.inj h
      subst ha
      rfl

/-- Each filter module ends in a clip, so its pixels lie in the unit
interval. -/
theorem module_log_stretch_inUnit (image : Img) (s : ℝ) :
    InUnit (module_log_stretch image s) :=
  fun _ _ _ => clip01_mem _

/-- CLAHE output pixels lie in the unit interval. -/
theorem module_clahe_inUnit (ext : Ext) (image : Img) (cl : ℝ) (t : ℕ × ℕ) :
    InUnit (module_clahe ext image cl t) :=
  fun _ _ _ => clip01_mem _

/-- High-pass output pixels lie in the unit interval. -/
theorem module_high_pass_inUnit (ext : Ext) (image : Img) (k : ℕ) :
    InUnit (module_high_pass ext image k) :=
  fun _ _ _ => clip01_mem _

/-- CLAHE preserves dimensions as soon as its external core does. -/
theorem module_clahe_dims (ext : Ext)
    (hcl : ∀ cl : ℝ, ∀ t : ℕ × ℕ, ∀ g : Grid ℕ,
      (ext.claheApply cl t g).h = g.h ∧ (ext.claheApply cl t g).w = g.w)
    (image : Img) (cl : ℝ) (t : ℕ × ℕ) :
    (module_clahe ext image cl t).h = image.h
      ∧ (module_clahe ext image cl t).w = image.w :=
  ⟨(hcl cl t _).1, (hcl cl t _).2⟩

/-- C4: `module_log_stretch` maps each pixel `x` to
`log(1 + strength*x) / log(1 + strength)` clamped to [0,1], with negative
input values first raised to 0 — the source's per-pixel map coincides with
the spec's formula at every pixel, for every strength. -/
theorem C4_log_stretch_formula (image : Img) (strength : ℝ) (i j : ℕ) (c : Fin 3) :
    (module_log_stretch image strength).pix i j c
      = logStretchSpecPix strength (image.pix i j c) := by
  show logStretchPix strength (image.pix i j c) = _
  unfold logStretchPix logStretchSpecPix
  rw [clip01_eq_min_max]
  have hmax : max (image.pix i j c) 0
      = if image.pix i j c < 0 then 0 else image.pix i j c := by
    rcases lt_or_le (image.pix i j c) 0 with h | h
    · rw [if_pos h, max_eq_right h.le]
    · rw [if_neg (not_lt.mpr h), max_eq_left h]
  rw [hmax]

/-- C5: for fixed positive strength, the per-pixel map of
`module_log_stretch` is monotonically increasing in its input. -/
theorem C5_log_stretch_monotone (strength x1 x2 : ℝ) (hs : 0 < strength)
    (hx : x1 ≤ x2) : logStretchPix strength x1 ≤ logStretchPix strength x2 := by
  unfold logStretchPix
  apply clip01_mono
  have hd : 0 < Real.log (1 + strength) := Real.log_pos (by linarith)
  have hm : max x1 0 ≤ max x2 0 := max_le_max hx le_rfl
  have h1 : (0:ℝ) < 1 + strength * max x1 0 := by
    have := mul_nonneg hs.le (le_max_right x1 (0:ℝ))
    linarith
  have h2 : 1 + strength * max x1 0 ≤ 1 + strength * max x2 0 := by
    have := mul_le_mul_of_nonneg_left hm hs.le
    linarith
  exact div_le_div_of_nonneg_right (Real.log_le_log h1 h2) hd.le

/-- Witness for C5 at strength 1 and pixel values 0 and 1. -/
theorem C5_witness :
    (0:ℝ) < 1 ∧ (0:ℝ) ≤ 1 ∧ logStretchPix 1 0 ≤ logStretchPix 1 1 :=
  ⟨one_pos, zero_le_one, C5_log_stretch_monotone 1 0 1 one_pos zero_le_one⟩

/-- C6: when the input equals its own Gaussian blur at the (odd-adjusted)
kernel size, `module_high_pass` returns the layer of the same dimensions with
every pixel exactly 0.5. -/
theorem C6_high_pass_flat (ext : Ext) (image : Img) (kernel_size : ℕ)
    (hflat : ext.gauss (oddify kernel_size) image = image) :
    (module_high_pass ext image kernel_size).h = image.h ∧
    (module_high_pass ext image kernel_size).w = image.w ∧
    ∀ i j : ℕ, ∀ c : Fin 3, (module_high_pass ext image kernel_size).pix i j c = 0.5 := by
  refine ⟨rfl, rfl, fun i j c => ?_⟩
  show clip01 (0.5 * image.pix i j c
    + 0.5 * (1 - (ext.gauss (oddify kernel_size) image).pix i j c)) = 0.5
  rw [hflat]
  have hmid : 0.5 * image.pix i j c + 0.5 * (1 - image.pix i j c) = (0.5:ℝ) := by
    ring
  rw [hmid]
  unfold clip01
  rw [min_eq_left (by norm_num : (0.5:ℝ) ≤ 1), max_eq_right (by norm_num : (0:ℝ) ≤ 0.5)]

/-- Witness for C6: the identity blur fixes the constant image, and the
high-pass output pixel is 0.5 there. -/
theorem C6_witness :
    ext0.gauss (oddify 21) imgZero = imgZero ∧
    (module_high_pass ext0 imgZero 21).pix 0 0 0 = 0.5 :=
  ⟨rfl, (C6_high_pass_flat ext0 imgZero 21 rfl).2.2 0 0 0⟩

/-- C7: for layers of equal dimensions, the display blend
`(1-alpha)*original + alpha*processed` returns the original layer at
alpha = 0 and the processed layer at alpha = 1, exactly in real arithmetic. -/
theorem C7_blend_endpoints (a b : Img) (hh : a.h = b.h) (hw : a.w = b.w) :
    update_display_blend a b 0 = a ∧ update_display_blend a b 1 = b := by
  constructor
  · apply Grid.eq_of (update_display_blend a b 0) a rfl rfl
    intro i j
    funext c
    show (1 - 0) * a.pix i j c + 0 * b.pix i j c + 0 = a.pix i j c
    ring
  · apply Grid.eq_of (update_display_blend a b 1) b hh hw
    intro i j
    funext c
    show (1 - 1) * a.pix i j c + 1 * b.pix i j c + 0 = b.pix i j c
    ring

/-- Witness for C7 on two concrete one-pixel layers. -/
theorem C7_witness :
    update_display_blend imgZero imgOne 0 = imgZero ∧
    update_display_blend imgZero imgOne 1 = imgOne :=
  C7_blend_endpoints imgZero imgOne rfl rfl

/-- C9: the original layer is immutable once loaded: after any sequence of
`apply_preset` calls, with known or unknown names, it is unchanged. -/
theorem C9_original_immutable (ext : Ext) (st : ImageProcessor) (orig : Img)
    (names : List String) (h : st.original_layer = some orig) :
    (apply_preset_run ext st names).original_layer = some orig := by
  unfold apply_preset_run
  induction names generalizing st with
  | nil => rw [List.foldl_nil]; exact h
  | cons n rest ih =>
      rw [List.foldl_cons]
      exact ih _ ((apply_preset_keeps_original ext st n).trans h)

/-- Witness for C9: a loaded state run through a known, an unknown and
another known preset name keeps its original layer. -/
theorem C9_witness :
    (apply_preset_run ext0 stLoaded
      ["HULL_SCANNER", "BOGUS", "WAKE_MAPPER"]).original_layer = some imgZero :=
  C9_original_immutable ext0 stLoaded imgZero ["HULL_SCANNER", "BOGUS", "WAKE_MAPPER"] rfl

/-- C10: calling `apply_preset` before any image is loaded is a total no-op
at the public interface: no exception is raised, `None` is returned, and the
state (original layer, processed layer, current preset) is unchanged. -/
theorem C10_unloaded_noop (ext : Ext) (st : ImageProcessor) (name : String)
    (h : st.original_layer = none) :
    apply_preset ext st name = (st, none) := by
  obtain ⟨o, p, c⟩ := st
  cases o with
  | none => rfl
  | some a => exact Option.noConfusion h

/-- Witness for C10 on the freshly initialised processor. -/
theorem C10_witness :
    apply_preset ext0 ImageProcessor.init "VOID_HUNTER" = (ImageProcessor.init, none) :=
  C10_unloaded_noop ext0 ImageProcessor.init "VOID_HUNTER" rfl

/-- C1 (counterexample): applying the unknown preset name "BOGUS" to a state
whose processed layer differs from its original layer does change the
processed layer, contrary to the claim that it is left unchanged. -/
theorem C1_counterexample :
    (apply_preset ext0 stMixed "BOGUS").1.processed_layer ≠ stMixed.processed_layer := by
  intro hEq
  have h1 : (apply_preset ext0 stMixed "BOGUS").1.processed_layer = some imgZero := by
    rw [apply_preset_some ext0 stMixed imgZero "BOGUS" rfl,
      preset_pipeline_unknown ext0 imgZero "BOGUS" (by decide) (by decide) (by decide)]
  have h2 : stMixed.processed_layer = some imgOne := rfl
  rw [h1, h2] at hEq
  have h3 : imgZero = imgOne := Option.some.inj hEq
  have h4 := congrArg (fun g : Img => g.pix 0 0 0) h3
  simp only [imgZero, imgOne] at h4
  exact zero_ne_one h4

/-- C1 (amended): applying an unknown preset name replaces the processed
layer with a copy of the original layer, records the unknown name as current
preset, and returns that layer; the unknown name is reported by a printed
warning, not an error. -/
theorem C1_unknown_resets_to_original (ext : Ext) (st : ImageProcessor)
    (orig : Img) (name : String) (h : st.original_layer = some orig)
    (h1 : name ≠ "VOID_HUNTER") (h2 : name ≠ "HULL_SCANNER")
    (h3 : name ≠ "WAKE_MAPPER") :
    (apply_preset ext st name).1.processed_layer = some orig ∧
    (apply_preset ext st name).1.original_layer = st.original_layer ∧
    (apply_preset ext st name).1.current_preset = some name ∧
    (apply_preset ext st name).2 = some orig := by
  rw [apply_preset_some ext st orig name h,
    preset_pipeline_unknown ext orig name h1 h2 h3]
  exact ⟨rfl, rfl, rfl, rfl⟩

/-- Witness for the amended C1 at the concrete mixed state and the unknown
name "BOGUS". -/
theorem C1_witness :
    (apply_preset ext0 stMixed "BOGUS").1.processed_layer = some imgZero ∧
    (apply_preset ext0 stMixed "BOGUS").1.original_layer = stMixed.original_layer ∧
    (apply_preset ext0 stMixed "BOGUS").1.current_preset = some "BOGUS" ∧
    (apply_preset ext0 stMixed "BOGUS").2 = some imgZero :=
  C1_unknown_resets_to_original ext0 stMixed imgZero "BOGUS" rfl
    (by decide) (by decide) (by decide)

/-- C3: `apply_preset` runs exactly the fixed filter sequence of the named
preset with the fixed parameters, applied to the original layer; the result
becomes the processed layer and is returned. -/
theorem C3_preset_sequences (ext : Ext) (st : ImageProcessor) (orig : Img)
    (h : st.original_layer = some orig) :
    apply_preset ext st "VOID_HUNTER"
      = (ImageProcessor.mk st.original_layer
          (some (module_clahe ext (module_log_stretch orig 50) 4 (8, 8)))
          (some "VOID_HUNTER"),
         some (module_clahe ext (module_log_stretch orig 50) 4 (8, 8))) ∧
    apply_preset ext st "HULL_SCANNER"
      = (ImageProcessor.mk st.original_layer
          (some (module_high_pass ext (module_clahe ext orig 2 (8, 8)) 31))
          (some "HULL_SCANNER"),
         some (module_high_pass ext (module_clahe ext orig 2 (8, 8)) 31)) ∧
    apply_preset ext st "WAKE_MAPPER"
      = (ImageProcessor.mk st.original_layer
          (some (module_clahe ext
            (module_high_pass ext (module_log_stretch orig 10) 51) 3 (8, 8)))
          (some "WAKE_MAPPER"),
         some (module_clahe ext
           (module_high_pass ext (module_log_stretch orig 10) 51) 3 (8, 8))) := by
  refine ⟨?_, ?_, ?_⟩
  · rw [apply_preset_some ext st orig "VOID_HUNTER" h, preset_pipeline_void]
  · rw [apply_preset_some ext st orig "HULL_SCANNER" h, preset_pipeline_hull]
  · rw [apply_preset_some ext st orig "WAKE_MAPPER" h, preset_pipeline_wake]

/-- Witness for C3 on a concrete freshly loaded state. -/
theorem C3_witness :
    apply_preset ext0 stLoaded "VOID_HUNTER"
      = (ImageProcessor.mk (some imgZero)
          (some (module_clahe ext0 (module_log_stretch imgZero 50) 4 (8, 8)))
          (some "VOID_HUNTER"),
         some (module_clahe ext0 (module_log_stretch imgZero 50) 4 (8, 8))) :=
  (C3_preset_sequences ext0 stLoaded imgZero rfl).1

/-- C8: `load_image` fails, with an error message carrying the offending
path, precisely when the decoder cannot decode the file; on failure the
processor state (both layers and the current preset) is untouched. -/
theorem C8_load_error_iff (ext : Ext) (st : ImageProcessor) (path : String) :
    ((∃ e, (load_image ext st path).2 = Except.error e) ↔ ext.imread path = none) ∧
    (ext.imread path = none →
      (load_image ext st path).1 = st ∧
      (load_image ext st path).2
        = Except.error ("Could not load image from " ++ path)) := by
  cases him : ext.imread path with
  | none =>
      have hred : load_image ext st path
          = (st, Except.error ("Could not load image from " ++ path)) := by
        unfold load_image
        rw [him]
      exact ⟨⟨fun _ => rfl,
        fun _ => ⟨"Could not load image from " ++ path, by rw [hred]⟩⟩,
        fun _ => ⟨by rw [hred], by rw [hred]⟩⟩
  | some img =>
      have hok : (load_image ext st path).2 = Except.ok true := by
        unfold load_image
        rw [him]
      refine ⟨⟨fun hex => ?_, fun hc => Option.noConfusion hc⟩,
        fun hc => Option.noConfusion hc⟩
      obtain ⟨e, he⟩ := hex
      rw [hok] at he
      exact Except.noConfusion he

/-- Witness for C8 with a decoder that rejects every path. -/
theorem C8_witness :
    (load_image ext0 ImageProcessor.init "missing.png").1 = ImageProcessor.init ∧
    (load_image ext0 ImageProcessor.init "missing.png").2
      = Except.error ("Could not load image from " ++ "missing.png") :=
  (C8_load_error_iff ext0 ImageProcessor.init "missing.png").2 rfl

/-- C2: every filter module, and every preset application through
`apply_preset`, preserves the input dimensions and produces pixel values in
the unit interval (the external CLAHE core is assumed dimension-preserving,
as OpenCV guarantees; each module ends in a clip to [0,1]). -/
theorem C2_dims_and_range (ext : Ext)
    (hcl : ∀ cl : ℝ, ∀ t : ℕ × ℕ, ∀ g : Grid ℕ,
      (ext.claheApply cl t g).h = g.h ∧ (ext.claheApply cl t g).w = g.w) :
    (∀ image : Img, ∀ s : ℝ, (module_log_stretch image s).h = image.h
      ∧ (module_log_stretch image s).w = image.w
      ∧ InUnit (module_log_stretch image s)) ∧
    (∀ image : Img, ∀ cl : ℝ, ∀ t : ℕ × ℕ,
      (module_clahe ext image cl t).h = image.h
      ∧ (module_clahe ext image cl t).w = image.w
      ∧ InUnit (module_clahe ext image cl t)) ∧
    (∀ image : Img, ∀ k : ℕ, (module_high_pass ext image k).h = image.h
      ∧ (module_high_pass ext image k).w = image.w
      ∧ InUnit (module_high_pass ext image k)) ∧
    (∀ st : ImageProcessor, ∀ orig out : Img, ∀ name : String,
      st.original_layer = some orig → name ∈ presetNames →
      (apply_preset ext st name).1.processed_layer = some out →
      out.h = orig.h ∧ out.w = orig.w ∧ InUnit out) := by
  refine ⟨fun image s => ⟨rfl, rfl, module_log_stretch_inUnit image s⟩,
    fun image cl t => ⟨(module_clahe_dims ext hcl image cl t).1,
      (module_clahe_dims ext hcl image cl t).2, module_clahe_inUnit ext image cl t⟩,
    fun image k => ⟨rfl, rfl, module_high_pass_inUnit ext image k⟩,
    fun st orig out name h hmem hout => ?_⟩
  rw [apply_preset_some ext st orig name h] at hout
  obtain rfl := Option.some.inj hout
  simp only [presetNames, List.mem_cons, List.not_mem_nil, or_false] at hmem
  rcases hmem with hn | hn | hn
  · subst hn
    rw [preset_pipeline_void]
    exact ⟨(module_clahe_dims ext hcl _ 4 (8, 8)).1,
      (module_clahe_dims ext hcl _ 4 (8, 8)).2,
      module_clahe_inUnit ext _ 4 (8, 8)⟩
  · subst hn
    rw [preset_pipeline_hull]
    exact ⟨(module_clahe_dims ext hcl orig 2 (8, 8)).1,
      (module_clahe_dims ext hcl orig 2 (8, 8)).2,
      module_high_pass_inUnit ext _ 31⟩
  · subst hn
    rw [preset_pipeline_wake]
    exact ⟨(module_clahe_dims ext hcl _ 3 (8, 8)).1,
      (module_clahe_dims ext hcl _ 3 (8, 8)).2,
      module_clahe_inUnit ext _ 3 (8, 8)⟩

/-- Witness for C2 with identity externals on concrete one-pixel images. -/
theorem C2_witness :
    (module_log_stretch imgOne 50).h = imgOne.h ∧
    (module_clahe ext0 imgOne 4 (8, 8)).w = imgOne.w ∧
    0 ≤ (module_high_pass ext0 imgOne 31).pix 0 0 0 ∧
    (module_high_pass ext0 imgOne 31).pix 0 0 0 ≤ 1 ∧
    (module_clahe ext0 (module_log_stretch imgZero 50) 4 (8, 8)).h = imgZero.h ∧
    0 ≤ (module_clahe ext0 (module_log_stretch imgZero 50) 4 (8, 8)).pix 0 0 0 := by
  obtain ⟨hlog, hclahe, hhp, hpreset⟩ :=
    C2_dims_and_range ext0 (fun _ _ _ => ⟨rfl, rfl⟩)
  have hproc : (apply_preset ext0 stLoaded "VOID_HUNTER").1.processed_layer
      = some (module_clahe ext0 (module_log_stretch imgZero 50) 4 (8, 8)) := by
    rw [apply_preset_some ext0 stLoaded imgZero "VOID_HUNTER" rfl, preset_pipeline_void]
  have hv := hpreset stLoaded imgZero
    (module_clahe ext0 (module_log_stretch imgZero 50) 4 (8, 8))
    "VOID_HUNTER" rfl (by decide) hproc
  exact ⟨(hlog imgOne 50).1, (hclahe imgOne 4 (8, 8)).2.1,
    ((hhp imgOne 31).2.2 0 0 0).1, ((hhp imgOne 31).2.2 0 0 0).2,
    hv.1, (hv.2.2 0 0 0).1⟩

end

end GDF
